import Mathlib

/-!
Verification of the MSIBI (multistate iterative Boltzmann inversion) package
against its natural-language specification.

The development shallowly embeds the Python sources:

* `msibi/utils/error_calculation.py` — the similarity (F-fit) score;
* `msibi/workers.py` — the engine dispatch and the per-state simulation worker;
* `msibi/bonds.py` — the legacy `Bond` and `Angle` interaction terms;
* `msibi/optimize.py` — the `MSIBI` optimizer control loop.

Code that the repository references but does not ship under `src/`
(the modern `msibi.forces` force records, the modern `State` class, the
`natural_sort` key from `msibi/utils/sorting.py`, and the potential
corrector) is modelled from the specification; each such definition carries
a doc comment beginning `Modelled from the spec:`.

Floating point numbers are modelled as rationals where the code only does
field arithmetic, and as reals where the Boltzmann-inversion logarithm is
involved.  The IEEE result of an unguarded `0/0` (NaN) is rendered as
`none` in an `Option` result.
-/

namespace Msibi

/-! ## SimilarityScore: `calc_similarity` (msibi/utils/error_calculation.py) -/

/-- Numerator of the F-fit score: `np.sum(np.absolute(arr1 - arr2))`,
taken over matching grid points of two equal-length arrays. -/
def calcSimilarityNum (arr1 arr2 : List ℚ) : ℚ :=
  ((arr1.zip arr2).map (fun p => |p.1 - p.2|)).sum

/-- Denominator of the F-fit score:
`np.sum(np.absolute(arr1) + np.absolute(arr2))`. -/
def calcSimilarityDen (arr1 arr2 : List ℚ) : ℚ :=
  ((arr1.zip arr2).map (fun p => |p.1| + |p.2|)).sum

/-- Embeds `calc_similarity` (msibi/utils/error_calculation.py, lines 4-8).
The source divides `f_fit /= np.sum(...)` with no guard on the denominator;
over IEEE floats a zero denominator makes the division `0/0`, which is NaN,
and `1.0 - NaN` is again NaN.  NaN is rendered here as `none`; every run
with a nonzero denominator returns `some` of the exact rational value. -/
def calc_similarity (arr1 arr2 : List ℚ) : Option ℚ :=
  if calcSimilarityDen arr1 arr2 = 0 then none
  else some (1 - calcSimilarityNum arr1 arr2 / calcSimilarityDen arr1 arr2)

/-! ## SimulationDispatcher: engine selection (msibi/workers.py) -/

/-- Models the Python `str.lower()` used by the engine dispatch, written as
a plain map over the characters so that it evaluates inside the kernel. -/
def pyLower (s : String) : String := String.mk (s.data.map Char.toLower)

/-- The error raised by `run_query_simulations` for an engine it does not
dispatch; `msibi/utils/exceptions.py` is absent from the sources, so the
error is modelled as a record carrying the offending engine name, which is
exactly the payload the source passes to `UnsupportedEngine(engine)`. -/
structure UnsupportedEngine where
  engine : String
deriving DecidableEq, Repr

/-- The two workers defined in msibi/workers.py. -/
inductive WorkerKind where
  | hoomd
  | lammps
deriving DecidableEq, Repr

/-- Embeds the engine dispatch of `run_query_simulations`
(msibi/workers.py, lines 31-36).  The source reads

    if engine.lower() == 'hoomd':
        worker = _hoomd_worker
    if engine.lower() == 'lammps':
        worker = _lammps_worker
    else:
        raise UnsupportedEngine(engine)

The first branch binds the hoomd worker, but the second `if` is not an
`elif`: for every engine other than `lammps` — including `hoomd` itself —
control falls into the `else` and the error is raised.  The dead binding of
the hoomd worker is kept as the unused local. -/
def selectWorker (engine : String) : Except UnsupportedEngine WorkerKind :=
  let _hoomdSelected : Option WorkerKind :=
    if pyLower engine = "hoomd" then some WorkerKind.hoomd else none
  if pyLower engine = "lammps" then Except.ok WorkerKind.lammps
  else Except.error ⟨engine⟩

/-! ## State -/

/-- Modelled from the spec: the `State` consumed by msibi/optimize.py and
msibi/bonds.py (spec section 3: identity = name; attributes kT, per-state
alpha, working directory, trajectory path) is the modern `msibi.state.State`
class, which is absent from the sources — `src/msibi/state.py` holds a
superseded hoomd-script variant without the `alpha`, `dir` and `traj_file`
attributes that bonds.py reads. -/
structure State where
  name : String
  kT : ℚ
  alpha : ℚ
  dir : String
  traj_file : String
deriving DecidableEq, Repr

/-! ## Interaction terms (msibi/bonds.py) -/

/-- Modelled from the spec: the `natural_sort` key imported from
`msibi/utils/sorting.py` is absent from the sources; the spec describes the
construction only as a canonicalized ordering of the particle-type labels,
modelled here as the standard linear order on strings. -/
def natural_sort : String → String := id

/-- Python `sorted([t1, t2], key=natural_sort)` on a two-element list: the
sort is stable, so the pair is swapped exactly when the key of the second
label is strictly below the key of the first. -/
def sortedTwo (t1 t2 : String) : String × String :=
  if natural_sort t2 < natural_sort t1 then (t2, t1) else (t1, t2)

/-- Python dict assignment `d[key] = v` on an insertion-ordered association
list: an existing entry for the key is overwritten in place, otherwise the
entry is appended. -/
def dictSet {β : Type} (l : List (String × β)) (key : String) (v : β) :
    List (String × β) :=
  if l.any (fun p => p.1 == key) then
    l.map (fun p => if p.1 == key then (key, v) else p)
  else l ++ [(key, v)]

/-- The Python exceptions relevant to `_add_state`: the AttributeError the
interpreter raises for a read of a missing attribute, and the
DuplicateStateError the spec expects (no code path constructs it). -/
inductive PyError where
  | attributeError (attr : String)
  | duplicateStateError
deriving DecidableEq, Repr

/-- Per-state record stored by `Bond._add_state` (bonds.py, lines 47-54):
target and current distributions, alpha, alpha form, fit history and the
state directory.  `mergedK`/`mergedR0` stand for the `k`/`r0` keys that the
final `dict.update(self.bond_params)` would merge in, were that attribute
ever assigned. -/
structure BondStateRecord where
  target_distribution : Option (List ℚ)
  current_distribution : Option (List ℚ)
  alpha : ℚ
  alpha_form : String
  f_fit : List ℚ
  path : String
  mergedK : Option ℚ := none
  mergedR0 : Option ℚ := none
deriving DecidableEq, Repr

/-- Embeds the `Bond` class of msibi/bonds.py.  Attributes that Python sets
dynamically in later method calls (`k`, `r0`, `bond_parms`, `bond_type`)
are Option-valued with default `none` = attribute absent.  Note the two
distinct spellings: `set_harmonic` assigns `bond_parms`, while `_add_state`
reads `bond_params` — no method of the module ever assigns the latter, so
its default can never become `some`. -/
structure Bond where
  type1 : String
  type2 : String
  name : String
  r_min : ℚ
  r_max : ℚ
  states : List (String × BondStateRecord)
  k : Option ℚ := none
  r0 : Option ℚ := none
  bond_parms : Option (ℚ × ℚ) := none
  bond_type : Option String := none
  bond_params : Option (ℚ × ℚ) := none
deriving DecidableEq, Repr

/-- Embeds `Bond.__init__` (bonds.py, lines 6-14): the two type labels are
sorted with the `natural_sort` key, the name is the sorted labels joined by
a dash, and the per-state dict starts empty. -/
def Bond.init (type1 type2 : String) (r_min r_max : ℚ) : Bond :=
  let p := sortedTwo type1 type2
  { type1 := p.1, type2 := p.2, name := p.1 ++ "-" ++ p.2
    r_min := r_min, r_max := r_max, states := [] }

/-- Embeds `Bond.set_harmonic` (bonds.py, lines 16-23): assigns `k`, `r0`,
the `bond_parms` dict (note the spelling) and the bond type. -/
def Bond.set_harmonic (b : Bond) (k r0 : ℚ) : Bond :=
  { b with k := some k, r0 := some r0, bond_parms := some (k, r0)
           bond_type := some "harmonic" }

/-- Embeds `Bond.get_distribution` (bonds.py, lines 58-63): the method picks
the query or target trajectory, hands it to the external `bond_distribution`
sampler, binds the result to a local, and falls through without a `return`
statement — the Python call therefore evaluates to `None` regardless of what
the sampler produced. -/
def Bond.get_distribution (_b : Bond) (_s : State) (_query : Bool) :
    Option (List ℚ) := none

/-- Embeds `Bond._add_state` (bonds.py, lines 45-56).  The result is the
mutated bond paired with the error the call raises, if any.  Python first
executes the dict assignment `self._states[state] = {...}` — overwriting
whatever record was already stored for that state, the method has no
duplicate check — and the final line
`self._states[state].update(self.bond_params)` then looks up the attribute
`bond_params`, which no method of the module assigns (`set_harmonic` spells
it `bond_parms`), so the lookup raises AttributeError after the record is
already in place. -/
def Bond.add_state (b : Bond) (s : State) : Bond × Option PyError :=
  let target := b.get_distribution s false
  let record : BondStateRecord :=
    { target_distribution := target
      current_distribution := none
      alpha := s.alpha
      alpha_form := "linear"
      f_fit := []
      path := s.dir }
  let b1 := { b with states := dictSet b.states s.name record }
  match b.bond_params with
  | none => (b1, some (PyError.attributeError "bond_params"))
  | some parms =>
      let merged : BondStateRecord :=
        { record with mergedK := some parms.1, mergedR0 := some parms.2 }
      ({ b1 with states := dictSet b1.states s.name merged }, none)

/-- Per-state record stored by `Angle._add_state` (bonds.py, lines 81-85). -/
structure AngleStateRecord where
  k : ℚ
  theta : ℚ
deriving DecidableEq, Repr

/-- Embeds the `Angle` class of msibi/bonds.py (lines 72-80): unlike
`Bond.__init__`, the constructor stores the three type labels exactly in
the order given, with no sorting, and joins them by dashes for the name. -/
structure Angle where
  type1 : String
  type2 : String
  type3 : String
  name : String
  k : ℚ
  theta : ℚ
  states : List (String × AngleStateRecord)
deriving DecidableEq, Repr

/-- Embeds `Angle.__init__` (bonds.py, lines 72-80). -/
def Angle.init (type1 type2 type3 : String) (k theta : ℚ) : Angle :=
  { type1 := type1, type2 := type2, type3 := type3
    name := type1 ++ "-" ++ type2 ++ "-" ++ type3
    k := k, theta := theta, states := [] }

/-- Embeds `Angle._add_state` (bonds.py, lines 81-85): a dict assignment of
the `k`/`theta` record, with no duplicate check and no error path. -/
def Angle.add_state (a : Angle) (s : State) : Angle :=
  { a with states := dictSet a.states s.name { k := a.k, theta := a.theta } }

/-! ## PotentialCorrector (modelled from the spec) -/

/-- Modelled from the spec: the potential corrector of section 4.3, whose
implementation lives in the `msibi.forces` module that is absent from the
sources.  For every grid point where both the current and the target
distribution are nonzero, the iterative Boltzmann inversion update
`V_i + alpha * kT * ln(current_i / target_i)` is applied; points where
either distribution vanishes are not corrected directly (the spec
extrapolates them from neighbouring bins — the claims under study only
concern the corrected bins, so the input value is kept there). -/
noncomputable def correct (pot cur tgt : List ℝ) (kT alpha : ℝ) : List ℝ :=
  (List.range pot.length).map fun i =>
    let c := cur.getD i 0
    let t := tgt.getD i 0
    if c ≠ 0 ∧ t ≠ 0 then pot.getD i 0 + alpha * kT * Real.log (c / t)
    else pot.getD i 0

/-- Modelled from the spec: the real-valued F-fit score recorded into a
fit history once per state per iteration (section 4.2).  The exact
rational/NaN analysis of the in-repo `calc_similarity` is `calc_similarity`
above; the plain real division used here is only bookkeeping for the loop
model and drives no claim. -/
noncomputable def similarityR (a b : List ℝ) : ℝ :=
  1 - ((a.zip b).map (fun p => |p.1 - p.2|)).sum /
    ((a.zip b).map (fun p => |p.1| + |p.2|)).sum

/-- Modelled from the spec: the multistate blend of section 4.3 — the
per-state corrected tables are combined via a weighted average keyed by
each state alpha.  (Division by a zero total weight yields 0 in Lean; every
run studied has a positively weighted state.) -/
noncomputable def weightedAverage (tables : List (ℝ × List ℝ)) : List ℝ :=
  let total := (tables.map Prod.fst).sum
  let n := (tables.head?.map (fun p => p.2.length)).getD 0
  (List.range n).map fun i => ((tables.map fun p => p.1 * p.2.getD i 0).sum) / total

/-! ## Optimizer (msibi/optimize.py) -/

/-- The four interaction-term classes that `MSIBI.add_force` accepts; the
source distinguishes them by `isinstance` checks on the force object. -/
inductive ForceKind where
  | pair
  | bond
  | angle
  | dihedral
deriving DecidableEq, Repr

/-- Modelled from the spec: the per-state sub-record of an interaction term
(section 3) as kept by the absent `msibi.forces` module — target and
current distribution, alpha, and the fit history. -/
structure ForceStateRecord where
  target : List ℝ
  current : Option (List ℝ)
  alpha : ℚ
  fitHistory : List ℝ

/-- A force as `MSIBI` (optimize.py) sees it: its interaction kind (in the
source, its class), its name, the optimize flag, the potential table, and
the per-state records maintained by the absent forces module (modelled from
the spec). -/
structure Force where
  kind : ForceKind
  name : String
  optimize : Bool
  potential : List ℝ
  records : List (String × ForceStateRecord)

/-- Oracles for the external collaborators of one optimization run: the
target distribution sampled from a state reference trajectory when a force
registers that state, the current distribution recomputed from the query
trajectory of an iteration, and the exit status of the external simulation
process dispatched for each state at each iteration. -/
structure Env where
  targetDist : String → String → List ℝ
  currentDist : String → String → ℕ → List ℝ
  exitCode : String → ℕ → Int

/-- Modelled from the spec: `Force._add_state` of the absent forces module
(section 4.4) — register the per-state record holding the target
distribution, the state alpha and an empty fit history.  (The
DuplicateStateError the spec attaches to a repeated state is analysed on
the in-repo bonds.py implementation above; the optimizer paths studied here
pass each registered state exactly once per force.) -/
def Force.addState (env : Env) (f : Force) (s : State) : Force :=
  { f with records := f.records ++ [(s.name,
      { target := env.targetDist f.name s.name
        current := none
        alpha := s.alpha
        fitHistory := [] })] }

/-- Looks up the kT of a named state among the registered states. -/
def kTof (states : List State) (n : String) : ℚ :=
  match states.find? (fun s => s.name == n) with
  | some s => s.kT
  | none => 0

/-- Modelled from the spec: the per-force work of one iteration, combining
`MSIBI._recompute_distribution` (optimize.py, lines 272-288) — recompute
the current distribution of every registered state and append the fit
score to the fit history — with the `_update_potential` of the absent
forces module: correct the table per state and blend the corrected tables
with the alpha-weighted average (section 4.3). -/
noncomputable def Force.update (env : Env) (states : List State) (iter : ℕ)
    (f : Force) : Force :=
  let recs := f.records.map fun p =>
    let cur := env.currentDist f.name p.1 iter
    let r := p.2
    (p.1, { r with current := some cur
                   fitHistory := r.fitHistory ++ [similarityR cur r.target] })
  let tables := recs.map fun p =>
    ((p.2.alpha : ℝ),
      correct f.potential (p.2.current.getD []) p.2.target
        ((kTof states p.1 : ℚ) : ℝ) (p.2.alpha : ℝ))
  { f with records := recs, potential := weightedAverage tables }

/-- The spec-level configuration error (section 7): for the condition below
the source raises `RuntimeError` with the message that only one type of
force can be set to optimize at a time; the spec taxonomy files this
condition under `ConfigurationError`. -/
inductive ConfigurationError where
  | mixedOptimizeKinds
deriving DecidableEq, Repr

/-- Embeds the bookkeeping state of the `MSIBI` class (optimize.py): the
iteration counter, the registered states and forces, and
`_optimize_forces`, modelled as the (name, kind) pairs of the forces
registered for optimization — the source list aliases objects of `forces`.
The hoomd configuration arguments of `__init__` (neighbor list, integrator
method and its validation, thermostat, time step, gsd period, seed)
configure the external engine only and are not modelled. -/
structure MSIBI where
  n_iterations : ℕ := 0
  states : List State := []
  forces : List Force := []
  optimizeForces : List (String × ForceKind) := []

/-- Embeds `MSIBI.__init__` (optimize.py, lines 46-78): the counter starts
at 0 with no states, no forces, and nothing registered for optimization. -/
def MSIBI.init : MSIBI := {}

/-- Embeds `MSIBI.add_state` (optimize.py, lines 80-94): appends the state
to `states`; the only other effect of the source is planting the non-owning
back reference `state._opt = self`, which touches no force. -/
def MSIBI.add_state (m : MSIBI) (s : State) : MSIBI :=
  { m with states := m.states ++ [s] }

/-- Embeds `MSIBI._add_optimize_force` (optimize.py, lines 135-144): raises
unless every force already registered for optimization has the class of the
new force, then appends it to `_optimize_forces`. -/
def MSIBI.addOptimizeForce (m : MSIBI) (f : Force) :
    Except ConfigurationError MSIBI :=
  if m.optimizeForces.all (fun p => p.2 == f.kind) then
    Except.ok { m with optimizeForces := m.optimizeForces ++ [(f.name, f.kind)] }
  else
    Except.error ConfigurationError.mixedOptimizeKinds

/-- Embeds `MSIBI.add_force` (optimize.py, lines 96-113).  The force is
appended to `forces` first.  If it is marked optimize, the kind check runs
and may raise — the append persists, Python having mutated the list before
the raise, while the `_add_state` loop is skipped.  Otherwise
`force._add_state(state)` runs for exactly the states registered at the
time of the call, mutating the just-appended force object.  The call
returns the mutated optimizer together with the raised error, if any. -/
def MSIBI.add_force (env : Env) (m : MSIBI) (f : Force) :
    MSIBI × Option ConfigurationError :=
  let m1 := { m with forces := m.forces ++ [f] }
  match (if f.optimize then MSIBI.addOptimizeForce m1 f else Except.ok m1) with
  | Except.error e => (m1, some e)
  | Except.ok m2 =>
      let fr := m.states.foldl (Force.addState env) f
      ({ m2 with forces := m.forces ++ [fr] }, none)

/-- Embeds `MSIBI._update_potentials` with `MSIBI._recompute_distribution`
(optimize.py, lines 264-288): every force registered for optimization is
recomputed and corrected in place; the source iterates the aliased
`_optimize_forces` list, modelled here by updating the forces whose names
it holds. -/
noncomputable def MSIBI.updatePotentials (env : Env) (m : MSIBI) : MSIBI :=
  { m with forces := m.forces.map fun f =>
      if m.optimizeForces.any (fun p => p.1 == f.name) then
        Force.update env m.states m.n_iterations f
      else f }

/-- Embeds one pass of the `run_optimization` loop body (optimize.py, lines
166-184): build the engine force objects (external), run the query
simulation of every state — each dispatched process produces an exit
status, bound here and inspected by nothing, exactly as `_hoomd_worker` and
the simulation call ignore it — then update the potentials and increment
the iteration counter. -/
noncomputable def MSIBI.runIteration (env : Env) (m : MSIBI) : MSIBI :=
  let _statuses := m.states.map fun s => env.exitCode s.name m.n_iterations
  let m1 := MSIBI.updatePotentials env m
  { m1 with n_iterations := m1.n_iterations + 1 }

/-- Embeds `MSIBI.run_optimization` (optimize.py, lines 146-184): the loop
body runs once per requested iteration; with zero iterations it does not
run at all.  `n_steps` is forwarded to the external simulation only. -/
noncomputable def MSIBI.run_optimization (env : Env) (m : MSIBI)
    (n_steps : ℕ) : ℕ → MSIBI
  | 0 => m
  | Nat.succ k =>
      MSIBI.run_optimization env (MSIBI.runIteration env m) n_steps k

/-- The terminal error the spec prescribes for a failed simulation
(section 7); no code under src constructs or raises it. -/
structure SimulationFailure where
  stateName : String
deriving DecidableEq, Repr

/-- Embeds `_hoomd_worker` (msibi/workers.py, lines 49-67): the worker
opens the per-state log files, launches the simulation process, blocks in
`proc.communicate()`, and logs a finish message.  The exit status of the
process is never inspected and nothing is raised: whatever the status, the
worker reports no failure. -/
def hoomdWorkerFailure (_exitStatus : Int) : Option SimulationFailure := none

/-! ## Concrete instances used by the witnesses and counterexamples -/

/-- A concrete state. -/
def stateC : State :=
  { name := "X", kT := 1, alpha := 1, dir := "xdir", traj_file := "t.gsd" }

/-- A concrete angle term. -/
def angleC : Angle := Angle.init "A" "B" "C" 1 1

/-- A concrete harmonic bond term (the label sorting of `Bond.__init__` is
spelled out; `set_harmonic` then assigns `bond_parms` — and, because of the
misspelling, `bond_params` stays unassigned). -/
def bondC : Bond :=
  Bond.set_harmonic
    { type1 := "A", type2 := "B", name := "A-B", r_min := 0, r_max := 3,
      states := [] } 100 1

/-- The per-state record that `Bond._add_state` builds (the target is
always `None`, as `Bond.get_distribution` returns nothing). -/
def bondRecordFor (s : State) : BondStateRecord :=
  { target_distribution := none, current_distribution := none,
    alpha := s.alpha, alpha_form := "linear", f_fit := [], path := s.dir }

/-- An environment with empty oracles, for concrete witnesses. -/
noncomputable def envW : Env :=
  { targetDist := fun _ _ => []
    currentDist := fun _ _ _ => []
    exitCode := fun _ _ => 0 }

/-- A concrete optimizer that already has a bond force registered for
optimization. -/
noncomputable def mW : MSIBI :=
  { n_iterations := 0
    states := []
    forces := [{ kind := ForceKind.bond, name := "b", optimize := true,
                 potential := [], records := [] }]
    optimizeForces := [("b", ForceKind.bond)] }

/-- A concrete angle force marked optimize. -/
noncomputable def forceAngleW : Force :=
  { kind := ForceKind.angle, name := "a", optimize := true,
    potential := [], records := [] }

/-- A concrete second bond force marked optimize. -/
noncomputable def forceBondW : Force :=
  { kind := ForceKind.bond, name := "b2", optimize := true,
    potential := [], records := [] }

/-- A concrete optimizer holding one registered state named X and no
forces. -/
noncomputable def m10 : MSIBI :=
  { n_iterations := 0, states := [stateC], forces := [], optimizeForces := [] }

/-- A concrete non-optimized pair force with no records. -/
noncomputable def force10 : Force :=
  { kind := ForceKind.pair, name := "p", optimize := false,
    potential := [], records := [] }

/-- A concrete state named Y, registered only after the force. -/
def state10 : State :=
  { name := "Y", kT := 1, alpha := 1, dir := "ydir", traj_file := "u.gsd" }

/-- A concrete optimized bond force: one-bin zero potential and a record
for state X with target distribution `[2]`. -/
noncomputable def forceX : Force :=
  { kind := ForceKind.bond, name := "A-B", optimize := true, potential := [0],
    records := [("X", { target := [2], current := none, alpha := 1,
                        fitHistory := [] })] }

/-- A concrete optimizer holding the single state X and the single
optimized force. -/
noncomputable def mX : MSIBI :=
  { n_iterations := 0, states := [stateC], forces := [forceX],
    optimizeForces := [("A-B", ForceKind.bond)] }

/-- An environment in which every dispatched simulation process exits with
the nonzero status 1, while the recomputed current distribution is
uniformly half the target. -/
noncomputable def envBad : Env :=
  { targetDist := fun _ _ => [2], currentDist := fun _ _ _ => [1],
    exitCode := fun _ _ => 1 }

/-! ## Claim C3: the zero-denominator behaviour of the similarity score -/

/-- C3 counterexample: at the concrete all-zero pair of distributions the
denominator is zero, and `calc_similarity` does not return 0.0 — the
unguarded division produces NaN (`none`). -/
theorem calc_similarity_zero_den_counterexample :
    calcSimilarityDen [(0 : ℚ), 0] [0, 0] = 0 ∧
      calc_similarity [(0 : ℚ), 0] [0, 0] ≠ some 0 := by
  refine ⟨by norm_num [calcSimilarityDen], ?_⟩
  have h0 : calc_similarity [(0 : ℚ), 0] [0, 0] = none := by
    norm_num [calc_similarity, calcSimilarityDen]
  rw [h0]
  simp

/-- C3 (amended): whenever the denominator `Σ(|current_i| + |target_i|)` is
zero, `calc_similarity` returns NaN (`none`), not 0.0 — the division is not
guarded; the score is a number only on nonzero denominators. -/
theorem calc_similarity_zero_den_nan (arr1 arr2 : List ℚ)
    (h : calcSimilarityDen arr1 arr2 = 0) :
    calc_similarity arr1 arr2 = none := by
  simp [calc_similarity, h]

/-- C3 witness: the amended theorem applied at the all-zero input of two
bins, its hypothesis evaluated away. -/
theorem calc_similarity_zero_den_nan_witness :
    calc_similarity [(0 : ℚ), 0] [0, 0] = none :=
  calc_similarity_zero_den_nan _ _ (by norm_num [calcSimilarityDen])

/-! ## Claim C4: the engine dispatch of run_query_simulations -/

/-- C4: evaluating the dispatch at the failing input.  Requesting the
default engine "hoomd" raises UnsupportedEngine instead of running the
hoomd worker — the hoomd branch is a dead store because the second `if` is
not an `elif` — while "lammps" dispatches and a genuinely unknown engine
raises as the claim expects. -/
theorem selectWorker_hoomd_raises :
    selectWorker "hoomd" = Except.error ⟨"hoomd"⟩ ∧
      selectWorker "lammps" = Except.ok WorkerKind.lammps ∧
      selectWorker "gromacs" = Except.error ⟨"gromacs"⟩ :=
  ⟨by rfl, by rfl, by rfl⟩

/-! ## Claim C1: the Boltzmann-inversion update rule -/

/-- Pointwise reading of the corrected table. -/
theorem correct_getD (pot cur tgt : List ℝ) (kT alpha : ℝ) (i : ℕ)
    (hi : i < pot.length) :
    (correct pot cur tgt kT alpha).getD i 0 =
      if cur.getD i 0 ≠ 0 ∧ tgt.getD i 0 ≠ 0 then
        pot.getD i 0 + alpha * kT * Real.log (cur.getD i 0 / tgt.getD i 0)
      else pot.getD i 0 := by
  have h1 : (List.range pot.length)[i]? = some i := List.getElem?_range hi
  simp [correct, List.getD_eq_getElem?_getD, List.getElem?_map, h1]

/-- C1: at every grid point where both distributions are nonzero, the
corrected potential equals the input potential plus
`alpha * kT * ln(current_i / target_i)`; in particular, with kT = 1,
alpha = 1 and the target uniformly double the current distribution, every
such bin decreases by exactly ln 2. -/
theorem correct_update_rule (pot cur tgt : List ℝ) (kT alpha : ℝ) (i : ℕ)
    (hi : i < pot.length) (hc : cur.getD i 0 ≠ 0) (ht : tgt.getD i 0 ≠ 0) :
    (correct pot cur tgt kT alpha).getD i 0
        = pot.getD i 0 + alpha * kT * Real.log (cur.getD i 0 / tgt.getD i 0) ∧
      (tgt.getD i 0 = 2 * cur.getD i 0 →
        (correct pot cur tgt 1 1).getD i 0 = pot.getD i 0 - Real.log 2) := by
  constructor
  · rw [correct_getD pot cur tgt kT alpha i hi, if_pos ⟨hc, ht⟩]
  · intro hdouble
    rw [correct_getD pot cur tgt 1 1 i hi, if_pos ⟨hc, ht⟩, hdouble]
    have hhalf : cur.getD i 0 / (2 * cur.getD i 0) = (2 : ℝ)⁻¹ := by
      rw [mul_comm, ← div_div, div_self hc, one_div]
    rw [hhalf, Real.log_inv]
    ring

/-- C1 witness: the update-rule theorem at the concrete one-bin table with
potential 0, current distribution 1 and target distribution 2. -/
theorem correct_update_rule_witness :
    (correct [(0 : ℝ)] [1] [2] 1 1).getD 0 0 = 0 - Real.log 2 := by
  have h := (correct_update_rule [(0 : ℝ)] [1] [2] 1 1 0
    (by simp) (by simp) (by simp)).2 (by norm_num)
  simpa using h

/-! ## Claim C5: canonicalization of the interaction-term labels -/

/-- The bond name is read off the sorted label pair. -/
theorem bond_init_name (t1 t2 : String) (a b : ℚ) :
    (Bond.init t1 t2 a b).name
      = (sortedTwo t1 t2).1 ++ "-" ++ (sortedTwo t1 t2).2 := rfl

/-- Two-element stable sorting does not depend on the input order of the
pair. -/
theorem sortedTwo_comm (t1 t2 : String) : sortedTwo t1 t2 = sortedTwo t2 t1 := by
  unfold sortedTwo
  rcases lt_trichotomy (natural_sort t2) (natural_sort t1) with h | h | h
  · rw [if_pos h, if_neg (asymm h)]
  · have ht : t2 = t1 := h
    subst ht
    rfl
  · rw [if_neg (asymm h), if_pos h]

/-- C5 counterexample: reversing the particle-type labels of an `Angle`
changes its name — `Angle.__init__` stores the labels unsorted. -/
theorem angle_reversed_labels_counterexample :
    (Angle.init "A" "B" "C" 1 1).name ≠ (Angle.init "C" "B" "A" 1 1).name := by
  decide

/-- C5 (amended): only `Bond` canonicalizes.  A bond built from its two
labels in either order gets the same (sorted) name, while `Angle` keeps its
three labels in construction order, so reversing them generally changes the
name — and the sources define no Pair or Dihedral class at all. -/
theorem bond_sorted_angle_order_preserving :
    (∀ t1 t2 : String, ∀ a b : ℚ,
      (Bond.init t1 t2 a b).name = (Bond.init t2 t1 a b).name) ∧
    (∀ a1 a2 a3 : String, ∀ k th : ℚ,
      (Angle.init a1 a2 a3 k th).name = a1 ++ "-" ++ a2 ++ "-" ++ a3) := by
  constructor
  · intro t1 t2 a b
    rw [bond_init_name, bond_init_name, sortedTwo_comm]
  · intro a1 a2 a3 k th
    rfl

/-! ## Claim C7: adding the same state twice to a term -/

/-- After a dict assignment the key is present. -/
theorem mem_keys_dictSet {β : Type} (l : List (String × β)) (key : String)
    (v : β) : key ∈ (dictSet l key v).map Prod.fst := by
  unfold dictSet
  by_cases h : l.any (fun p => p.1 == key) = true
  · rw [if_pos h]
    rw [List.any_eq_true] at h
    obtain ⟨p, hp, hk⟩ := h
    refine List.mem_map.mpr ⟨(key, v), List.mem_map.mpr ⟨p, hp, ?_⟩, rfl⟩
    simp [hk]
  · rw [if_neg h]
    simp

/-- A dict assignment to a key that is already present overwrites in place:
the key sequence of the dict does not change. -/
theorem keys_dictSet_of_mem {β : Type} (l : List (String × β)) (key : String)
    (v : β) (h : key ∈ l.map Prod.fst) :
    (dictSet l key v).map Prod.fst = l.map Prod.fst := by
  unfold dictSet
  have hany : l.any (fun p => p.1 == key) = true := by
    rw [List.any_eq_true]
    obtain ⟨p, hp, hk⟩ := List.mem_map.mp h
    exact ⟨p, hp, by simp [hk]⟩
  rw [if_pos hany, List.map_map]
  apply List.map_congr_left
  intro p _
  by_cases hp : (p.1 == key) = true
  · simp [Function.comp, hp, (by simpa using hp : p.1 = key)]
  · simp [Function.comp, hp]

/-- Characterization of `Bond._add_state` when the `bond_params` attribute
is absent — as it is on every bond the module can build: the record is
inserted first, then AttributeError is raised. -/
theorem bond_add_state_of_none (b : Bond) (s : State)
    (hb : b.bond_params = none) :
    b.add_state s =
      ({ b with states := dictSet b.states s.name (bondRecordFor s) },
       some (PyError.attributeError "bond_params")) := by
  unfold Bond.add_state
  rw [hb]
  rfl

/-- The error component of `Bond._add_state` in the absent-attribute case. -/
theorem bond_add_state_snd (b : Bond) (s : State)
    (hb : b.bond_params = none) :
    (b.add_state s).2 = some (PyError.attributeError "bond_params") := by
  rw [bond_add_state_of_none b s hb]

/-- The mutated state dict of `Bond._add_state` in the absent-attribute
case. -/
theorem bond_add_state_fst_states (b : Bond) (s : State)
    (hb : b.bond_params = none) :
    (b.add_state s).1.states = dictSet b.states s.name (bondRecordFor s) := by
  rw [bond_add_state_of_none b s hb]

/-- `_add_state` does not assign `bond_params` either. -/
theorem bond_add_state_fst_params (b : Bond) (s : State)
    (hb : b.bond_params = none) :
    (b.add_state s).1.bond_params = none := by
  rw [bond_add_state_of_none b s hb]
  exact hb

/-- In the hypothetical case of an assigned `bond_params` attribute,
`_add_state` merges the parameters and raises nothing. -/
theorem bond_add_state_some (b : Bond) (s : State) (parms : ℚ × ℚ)
    (hb : b.bond_params = some parms) : (b.add_state s).2 = none := by
  unfold Bond.add_state
  rw [hb]

/-- C7 counterexample: the same state added twice to concrete in-repo
terms.  For the `Angle`, the second `_add_state` completes with no error of
any kind and leaves the term exactly as after the first call; for the
harmonic `Bond`, the second call raises AttributeError — not
DuplicateStateError. -/
theorem add_state_twice_counterexample :
    (angleC.add_state stateC).add_state stateC = angleC.add_state stateC ∧
      ((bondC.add_state stateC).1.add_state stateC).2
        = some (PyError.attributeError "bond_params") := by
  constructor <;> decide

/-- C7 (amended): `_add_state` never raises DuplicateStateError, for either
in-repo interaction term.  `Angle._add_state` has no error path at all, and
a repeated call for the same state overwrites the record, adding no entry;
`Bond._add_state` raises AttributeError on every call — second or first —
because its final line reads the never-assigned `bond_params` attribute,
and a repeated call likewise adds no entry to the state dict. -/
theorem add_state_never_duplicate_error (a : Angle) (b : Bond) (s : State)
    (hb : b.bond_params = none) :
    ((a.add_state s).add_state s).states.map Prod.fst
        = (a.add_state s).states.map Prod.fst ∧
      (b.add_state s).2 = some (PyError.attributeError "bond_params") ∧
      ((b.add_state s).1.add_state s).2
        = some (PyError.attributeError "bond_params") ∧
      (((b.add_state s).1.add_state s).1).states.map Prod.fst
        = ((b.add_state s).1).states.map Prod.fst ∧
      ∀ b' : Bond, (b'.add_state s).2 ≠ some PyError.duplicateStateError := by
  have hb1 : (b.add_state s).1.bond_params = none :=
    bond_add_state_fst_params b s hb
  refine ⟨?_, bond_add_state_snd b s hb, bond_add_state_snd _ s hb1, ?_, ?_⟩
  · show (dictSet (a.add_state s).states s.name _).map Prod.fst = _
    exact keys_dictSet_of_mem _ _ _ (mem_keys_dictSet _ _ _)
  · have hmem : s.name ∈ ((b.add_state s).1).states.map Prod.fst := by
      rw [bond_add_state_fst_states b s hb]
      exact mem_keys_dictSet _ _ _
    rw [bond_add_state_fst_states _ s hb1]
    exact keys_dictSet_of_mem _ _ _ hmem
  · intro b'
    rcases hbp : b'.bond_params with _ | parms
    · rw [bond_add_state_snd b' s hbp]
      simp
    · rw [bond_add_state_some b' s parms hbp]
      simp

/-- C7 witness: the amended theorem applied at the concrete angle, bond and
state, the bond hypothesis evaluated away. -/
theorem add_state_never_duplicate_error_witness :
    ((angleC.add_state stateC).add_state stateC).states.map Prod.fst
        = (angleC.add_state stateC).states.map Prod.fst ∧
      (bondC.add_state stateC).2
        = some (PyError.attributeError "bond_params") :=
  ⟨(add_state_never_duplicate_error angleC bondC stateC rfl).1,
   (add_state_never_duplicate_error angleC bondC stateC rfl).2.1⟩

/-! ## Claim C6: one optimized interaction kind at a time -/

/-- C6: registering a force marked optimize whose kind differs from an
already-registered optimized force raises the configuration error (the
source raises RuntimeError, filed by the spec as ConfigurationError), while
a second optimized force of the same kind is accepted without error. -/
theorem add_force_optimize_kind_check (env : Env) (m : MSIBI) (f : Force)
    (hopt : f.optimize = true) :
    ((∃ p ∈ m.optimizeForces, p.2 ≠ f.kind) →
      (MSIBI.add_force env m f).2
        = some ConfigurationError.mixedOptimizeKinds) ∧
    ((∀ p ∈ m.optimizeForces, p.2 = f.kind) →
      (MSIBI.add_force env m f).2 = none) := by
  constructor
  · rintro ⟨p, hp, hne⟩
    have hall : ¬ (m.optimizeForces.all (fun q => q.2 == f.kind) = true) := by
      rw [List.all_eq_true]
      intro hforall
      exact hne (by simpa using hforall p hp)
    simp [MSIBI.add_force, hopt, MSIBI.addOptimizeForce, hall]
  · intro hsame
    have hall : m.optimizeForces.all (fun q => q.2 == f.kind) = true := by
      rw [List.all_eq_true]
      intro p hp
      simpa using hsame p hp
    simp [MSIBI.add_force, hopt, MSIBI.addOptimizeForce, hall]

/-- C6 witness: the kind-check theorem applied to the concrete optimizer
`mW`: the differing-kind angle force raises, the same-kind bond force is
accepted. -/
theorem add_force_optimize_kind_check_witness :
    (MSIBI.add_force envW mW forceAngleW).2
        = some ConfigurationError.mixedOptimizeKinds ∧
      (MSIBI.add_force envW mW forceBondW).2 = none := by
  constructor
  · exact (add_force_optimize_kind_check envW mW forceAngleW rfl).1
      ⟨("b", ForceKind.bond), by simp [mW], by simp [forceAngleW]⟩
  · exact (add_force_optimize_kind_check envW mW forceBondW rfl).2
      (by intro p hp; simp [mW] at hp; simp [hp, forceBondW])

/-! ## Claim C8: a zero-iteration run mutates nothing -/

/-- C8: `run_optimization` with `n_iterations = 0` leaves every registered
force potential table and the iteration counter unchanged — the loop body
never runs. -/
theorem run_optimization_zero_iterations (env : Env) (m : MSIBI)
    (n_steps : ℕ) :
    (MSIBI.run_optimization env m n_steps 0).forces.map Force.potential
        = m.forces.map Force.potential ∧
      (MSIBI.run_optimization env m n_steps 0).n_iterations = m.n_iterations :=
  ⟨rfl, rfl⟩

/-! ## Claim C9: the iteration counter only grows -/

/-- One loop pass increments the counter by exactly one. -/
theorem runIteration_counter (env : Env) (m : MSIBI) :
    (MSIBI.runIteration env m).n_iterations = m.n_iterations + 1 := rfl

/-- A run of `k` iterations advances the counter by exactly `k`. -/
theorem run_optimization_counter (env : Env) (n_steps : ℕ) :
    ∀ (k : ℕ) (m : MSIBI),
      (MSIBI.run_optimization env m n_steps k).n_iterations
        = m.n_iterations + k
  | 0, _ => rfl
  | Nat.succ k, m => by
      have ih := run_optimization_counter env n_steps k (MSIBI.runIteration env m)
      show (MSIBI.run_optimization env (MSIBI.runIteration env m)
          n_steps k).n_iterations = m.n_iterations + (k + 1)
      rw [ih, runIteration_counter]
      omega

/-- C9: the counter starts at 0 in `__init__`, a completed call of `k`
iterations increases it by exactly `k`, and a subsequent call resumes from
the reached value instead of resetting — the counter never decreases. -/
theorem n_iterations_monotone_resumable :
    MSIBI.init.n_iterations = 0 ∧
    (∀ (env : Env) (m : MSIBI) (n_steps k : ℕ),
      (MSIBI.run_optimization env m n_steps k).n_iterations
        = m.n_iterations + k) ∧
    (∀ (env : Env) (m : MSIBI) (ns1 k1 ns2 k2 : ℕ),
      (MSIBI.run_optimization env
          (MSIBI.run_optimization env m ns1 k1) ns2 k2).n_iterations
        = m.n_iterations + k1 + k2) := by
  refine ⟨rfl, fun env m ns k => run_optimization_counter env ns k m, ?_⟩
  intro env m ns1 k1 ns2 k2
  rw [run_optimization_counter, run_optimization_counter]

/-! ## Claim C10: registration order at the public interface -/

/-- Looping `force._add_state(state)` over a list of states appends exactly
those states (in order) to the record keys of the force. -/
theorem foldl_addState_keys (env : Env) :
    ∀ (states : List State) (f : Force),
      ((states.foldl (Force.addState env) f).records.map Prod.fst)
        = f.records.map Prod.fst ++ states.map State.name
  | [], f => by simp
  | s :: rest, f => by
      have ih := foldl_addState_keys env rest (Force.addState env f s)
      rw [List.foldl_cons, ih]
      simp [Force.addState]

/-- The two outcomes of `MSIBI.add_force`: on success the appended force
carries the `_add_state` records of the states registered at call time; on
a kind-check raise the force is appended untouched. -/
theorem add_force_cases (env : Env) (m : MSIBI) (f : Force) :
    ((MSIBI.add_force env m f).2 = none ∧
      (MSIBI.add_force env m f).1.forces
        = m.forces ++ [m.states.foldl (Force.addState env) f]) ∨
    ((MSIBI.add_force env m f).2
        = some ConfigurationError.mixedOptimizeKinds ∧
      (MSIBI.add_force env m f).1.forces = m.forces ++ [f]) := by
  unfold MSIBI.add_force MSIBI.addOptimizeForce
  by_cases ho : f.optimize = true
  · by_cases hall : m.optimizeForces.all (fun p => p.2 == f.kind) = true
    · left
      simp [ho, hall]
    · right
      simp [ho, hall]
  · left
    simp [ho]

/-- C10: `add_force` gives the new force a per-state record for exactly
the states registered at the time of the call (none at all when the
optimize-kind check raises), `add_state` appends the state without touching
any registered force — hence a force holds a record for a state only if
`add_state(state)` preceded `add_force(force)`: a state registered after
both calls is absent from the force records. -/
theorem registration_order_sensitivity (env : Env) (m : MSIBI) (f : Force)
    (s : State) :
    ((MSIBI.add_force env m f).2 = none →
      (MSIBI.add_force env m f).1.forces
          = m.forces ++ [m.states.foldl (Force.addState env) f] ∧
        (m.states.foldl (Force.addState env) f).records.map Prod.fst
          = f.records.map Prod.fst ++ m.states.map State.name) ∧
    (∀ e, (MSIBI.add_force env m f).2 = some e →
      (MSIBI.add_force env m f).1.forces = m.forces ++ [f]) ∧
    ((MSIBI.add_state m s).forces = m.forces ∧
      (MSIBI.add_state m s).states = m.states ++ [s]) ∧
    (s.name ∉ f.records.map Prod.fst → s.name ∉ m.states.map State.name →
      ∃ g, (MSIBI.add_state (MSIBI.add_force env m f).1 s).forces.getLast?
          = some g ∧ s.name ∉ g.records.map Prod.fst) := by
  refine ⟨?_, ?_, ⟨rfl, rfl⟩, ?_⟩
  · intro hok
    rcases add_force_cases env m f with ⟨_, hforces⟩ | ⟨herr, _⟩
    · exact ⟨hforces, foldl_addState_keys env m.states f⟩
    · rw [hok] at herr
      exact absurd herr (by simp)
  · intro e he
    rcases add_force_cases env m f with ⟨hok, _⟩ | ⟨_, hforces⟩
    · rw [he] at hok
      exact absurd hok (by simp)
    · exact hforces
  · intro hf hm
    rcases add_force_cases env m f with ⟨_, hforces⟩ | ⟨_, hforces⟩
    · refine ⟨m.states.foldl (Force.addState env) f, ?_, ?_⟩
      · show ((MSIBI.add_force env m f).1.forces).getLast? = _
        rw [hforces, List.getLast?_concat]
      · rw [foldl_addState_keys env m.states f]
        simp only [List.mem_append]
        rintro (h | h)
        · exact hf h
        · exact hm h
    · refine ⟨f, ?_, hf⟩
      show ((MSIBI.add_force env m f).1.forces).getLast? = _
      rw [hforces, List.getLast?_concat]

/-- C10 witness: the registration-order theorem at the concrete optimizer —
the force added while only X was registered gets exactly the X record, and
the later-registered Y never appears among its record keys. -/
theorem registration_order_sensitivity_witness :
    ((MSIBI.add_force envW m10 force10).1.forces
        = m10.forces ++ [m10.states.foldl (Force.addState envW) force10] ∧
      (m10.states.foldl (Force.addState envW) force10).records.map Prod.fst
        = force10.records.map Prod.fst ++ m10.states.map State.name) ∧
    (∃ g, (MSIBI.add_state (MSIBI.add_force envW m10 force10).1
        state10).forces.getLast? = some g ∧
      state10.name ∉ g.records.map Prod.fst) :=
  ⟨(registration_order_sensitivity envW m10 force10 state10).1 rfl,
   (registration_order_sensitivity envW m10 force10 state10).2.2.2
     (by simp [force10]) (by simp [m10, stateC, state10])⟩

/-! ## Claim C2: nonzero simulation exit statuses -/

/-- C2 counterexample: an iteration whose only dispatched simulation exits
with status 1.  The run completes normally — the counter advances — and
the potential table IS updated from the distributions of that iteration:
no SimulationFailure stops the correction. -/
theorem nonzero_exit_still_updates_potential :
    envBad.exitCode "X" 0 = 1 ∧
      (MSIBI.run_optimization envBad mX 500 1).n_iterations = 1 ∧
      (MSIBI.run_optimization envBad mX 500 1).forces.map Force.potential
        ≠ mX.forces.map Force.potential := by
  refine ⟨rfl, rfl, ?_⟩
  have hrun : MSIBI.run_optimization envBad mX 500 1
      = MSIBI.runIteration envBad mX := rfl
  have hcond : ((1 : ℝ) ≠ 0 ∧ (2 : ℝ) ≠ 0) := by norm_num
  have hcorr : correct [(0 : ℝ)] [1] [2] 1 1
      = [0 + 1 * 1 * Real.log (1 / 2)] := by
    show List.map _ (List.range 1) = _
    rw [show List.range 1 = [0] from rfl]
    show [if (1 : ℝ) ≠ 0 ∧ (2 : ℝ) ≠ 0 then
        (0 : ℝ) + 1 * 1 * Real.log (1 / 2) else 0] = _
    rw [if_pos hcond]
  have hpot : (MSIBI.runIteration envBad mX).forces.map Force.potential
      = [weightedAverage [((1 : ℝ), correct [0] [1] [2] 1 1)]] := by
    simp [MSIBI.runIteration, MSIBI.updatePotentials, Force.update, mX,
      forceX, envBad, stateC, kTof]
  have hw : weightedAverage [((1 : ℝ), correct [0] [1] [2] 1 1)]
      = [0 + 1 * 1 * Real.log (1 / 2)] := by
    rw [hcorr]
    simp [weightedAverage, List.range_succ]
  have hne : (0 : ℝ) + 1 * 1 * Real.log (1 / 2) ≠ 0 := by
    have hlt : Real.log (1 / 2) < 0 := Real.log_neg (by norm_num) (by norm_num)
    intro h
    rw [zero_add, one_mul, one_mul] at h
    linarith
  rw [hrun, hpot, hw]
  have hmx : mX.forces.map Force.potential = [[(0 : ℝ)]] := by
    simp [mX, forceX]
  rw [hmx]
  intro h
  injection h with h1 _
  injection h1 with h2 _
  exact hne h2

/-- C2 (amended): exit statuses are invisible to the optimizer.  No
SimulationFailure is ever produced — `_hoomd_worker` reports no failure
whatever the status — and the result of `run_optimization` is literally
independent of the exit-status oracle, so the potential corrections of an
iteration are applied exactly as on success. -/
theorem run_optimization_ignores_exit_status :
    (∀ (env : Env) (c : String → ℕ → Int) (m : MSIBI) (n_steps k : ℕ),
      MSIBI.run_optimization { env with exitCode := c } m n_steps k
        = MSIBI.run_optimization env m n_steps k) ∧
    (∀ status : Int, hoomdWorkerFailure status = none) := by
  constructor
  · intro env c m n_steps k
    induction k generalizing m with
    | zero => rfl
    | succ k ih =>
        show MSIBI.run_optimization { env with exitCode := c }
            (MSIBI.runIteration { env with exitCode := c } m) n_steps k = _
        have hiter : MSIBI.runIteration { env with exitCode := c } m
            = MSIBI.runIteration env m := rfl
        rw [hiter]
        exact ih _
  · intro status
    rfl

end Msibi
